import Mathlib

/-!
Verification development for the CameraHal sensor listener
(src/CameraHal/SensorListener.cpp).

The accelerometer arithmetic of sensor_events_listener (lines 42-93) is
embedded over the reals: float values become real numbers, the C cast
of a floating value to int becomes truncation toward zero, and the 0/0
division producing NaN (whose later conversion to int is undefined) is
modelled by an Option, none standing for the poisoned value.  The member
functions of SensorListener (setCallbacks, handleOrientation,
enableSensor, disableSensor and the lifecycle functions) are embedded as
pure state-passing functions over a record of the member fields, with the
hardware sensor subsystem's observable calls logged in a counter record.
-/

/-- Truncation toward zero of a real value, the semantics of a C cast of a
floating-point value to int (floor for nonnegative values, ceiling for
negative ones). -/
noncomputable def ftrunc (r : ℝ) : ℤ := if 0 ≤ r then ⌊r⌋ else ⌈r⌉

/-- Source constant RADIANS_2_DEG = (float)(180 / M_PI) (line 36), modelled
as the exact real 180 / pi. -/
noncomputable def RADIANS_2_DEG : ℝ := 180 / Real.pi

/-- Source constant DEGREES_90_THRESH (line 38). -/
def DEGREES_90_THRESH : Int := 50

/-- Source constant DEGREES_180_THRESH (line 39). -/
def DEGREES_180_THRESH : Int := 170

/-- Source constant DEGREES_270_THRESH (line 40). -/
def DEGREES_270_THRESH : Int := 250

/-- Model of the C library function atan2f over the reals: the angle of the
point (x, y) in (-pi, pi], split by the sign of the arguments as the C
library defines it (signed zeros collapse to 0, and atan2(0, 0) = 0 as on
glibc). -/
noncomputable def atan2 (y x : ℝ) : ℝ :=
  if 0 < x then Real.arctan (y / x)
  else if x < 0 then
    (if 0 ≤ y then Real.arctan (y / x) + Real.pi else Real.arctan (y / x) - Real.pi)
  else if 0 < y then Real.pi / 2
  else if y < 0 then -(Real.pi / 2)
  else 0

/-- Model of float division: 0/0 yields NaN (whose later use is undefined),
modelled as none; every division by a nonzero divisor is exact. -/
noncomputable def fdiv (a b : ℝ) : Option ℝ := if b = 0 then none else some (a / b)

/-- radius = (float) sqrt(x * x + y * y + z * z) (line 63). -/
noncomputable def radius (x y z : ℝ) : ℝ := Real.sqrt (x * x + y * y + z * z)

/-- tilt = (int) asinf(q) * RADIANS_2_DEG (line 64) for q = z / radius.
In the source the cast binds to the call asinf(q) alone, so the radian
value is truncated to an int before the multiplication by RADIANS_2_DEG;
the float product is then truncated again on assignment to the int
variable tilt.  Both truncations are transcribed as they stand. -/
noncomputable def tiltOf (q : ℝ) : ℤ :=
  ftrunc ((ftrunc (Real.arcsin q) : ℝ) * RADIANS_2_DEG)

/-- orient pipeline (lines 65-79): orient = (int) atan2f(-x, y) *
RADIANS_2_DEG (cast binding to the call, as on line 64), += 360 when
negative, then the threshold ladder with >= comparisons. -/
noncomputable def orientOf (x y : ℝ) : ℤ :=
  let orient0 : ℤ := ftrunc ((ftrunc (atan2 (-x) y) : ℝ) * RADIANS_2_DEG)
  let orient1 : ℤ := if orient0 < 0 then orient0 + 360 else orient0
  if DEGREES_270_THRESH ≤ orient1 then 270
  else if DEGREES_180_THRESH ≤ orient1 then 180
  else if DEGREES_90_THRESH ≤ orient1 then 90
  else 0

/-- The computation sensor_events_listener performs on one accelerometer
sample (lines 49-80), producing the (tilt, orient) pair passed to
handleOrientation.  The division z / radius is not guarded in the source;
when radius = 0 it is 0/0, and the NaN poisons the tilt value whose
conversion to int is undefined, so the result is none. -/
noncomputable def processAccelSample (x y z : ℝ) : Option (ℤ × ℤ) :=
  match fdiv z (radius x y z) with
  | none => none
  | some q => some (tiltOf q, orientOf x y)

/-- The tilt value as the spec's sentence states it: asin(z / radius)
converted to degrees, truncated to an integer.  Stated from the spec's
words, for comparison with tiltOf. -/
noncomputable def tiltClaimed (x y z : ℝ) : ℤ :=
  ftrunc (Real.arcsin (z / radius x y z) * RADIANS_2_DEG)

/-- The orientation value as the spec's sentence states it: atan2(-x, y)
converted to degrees (truncated to an integer), normalized into [0, 360)
by adding 360 if negative, then discretized by the same >= threshold
ladder.  Stated from the spec's words, for comparison with orientOf. -/
noncomputable def orientClaimed (x y : ℝ) : ℤ :=
  let d0 : ℤ := ftrunc (atan2 (-x) y * RADIANS_2_DEG)
  let d1 : ℤ := if d0 < 0 then d0 + 360 else d0
  if DEGREES_270_THRESH ≤ d1 then 270
  else if DEGREES_180_THRESH ≤ d1 then 180
  else if DEGREES_90_THRESH ≤ d1 then 90
  else 0

/-- Helper: truncation toward zero of an exact integer is that integer. -/
lemma ftrunc_intCast (n : ℤ) : ftrunc (n : ℝ) = n := by
  unfold ftrunc
  split
  · exact Int.floor_intCast n
  · exact Int.ceil_intCast n

/-- Helper: ftrunc 0 = 0. -/
lemma ftrunc_zero : ftrunc 0 = 0 := by
  have h := ftrunc_intCast 0
  simpa using h

/-- Helper: pi is smaller than 4. -/
lemma pi_lt_four : Real.pi < 4 := by
  have h := Real.pi_lt_d2
  linarith

/-- Helper: the radian value asin(1) = pi/2 truncates to the int 1. -/
lemma ftrunc_pi_div_two : ftrunc (Real.pi / 2) = 1 := by
  have hpos : (0 : ℝ) ≤ Real.pi / 2 := by
    have := Real.pi_pos
    linarith
  unfold ftrunc
  rw [if_pos hpos, Int.floor_eq_iff]
  constructor
  · have := Real.pi_gt_three
    push_cast
    linarith
  · have := pi_lt_four
    push_cast
    linarith

/-- Helper: 180 / pi truncates to the int 57. -/
lemma ftrunc_deg_per_rad : ftrunc (180 / Real.pi) = 57 := by
  have hpi := Real.pi_pos
  have hpos : (0 : ℝ) ≤ 180 / Real.pi := by positivity
  unfold ftrunc
  rw [if_pos hpos, Int.floor_eq_iff]
  constructor
  · rw [le_div_iff₀ hpi]
    have := Real.pi_lt_d2
    push_cast
    nlinarith
  · rw [div_lt_iff₀ hpi]
    have := Real.pi_gt_d6
    push_cast
    nlinarith

/-- Helper: the radian value atan2(-1, 1) = -(pi/4) truncates to the int 0. -/
lemma ftrunc_neg_pi_div_four : ftrunc (-(Real.pi / 4)) = 0 := by
  have hpi := Real.pi_pos
  have hneg : ¬ (0 : ℝ) ≤ -(Real.pi / 4) := by
    push_neg
    linarith
  unfold ftrunc
  rw [if_neg hneg, Int.ceil_eq_iff]
  constructor
  · have := pi_lt_four
    push_cast
    linarith
  · push_cast
    linarith

/-- Modelled from the spec: SENSOR_ORIENTATION is the bitmask flag for the
orientation sensor kind.  Its declaration lives in SensorListener.h, which
is not among the sources; spec section 3 gives SensorMask bitset
semantics.  The particular bit is immaterial to every claim below, so bit
0 is used. -/
def SENSOR_ORIENTATION : Nat := 1

/-- The member fields of SensorListener relevant to the callback and mask
claims: sensorsEnabled (the bitmask), mOrientationCb (NULL modelled as
none, non-null function pointers as numeric identities) and mCbCookie
(the opaque context pointer as a number). -/
structure SensorListenerState where
  sensorsEnabled : Nat
  mOrientationCb : Option Nat
  mCbCookie : Nat
deriving DecidableEq

/-- Counters of the observable calls the listener makes into the hardware
sensor subsystem (enableSensor, setEventRate, disableSensor on the event
queue). -/
structure SubsystemCalls where
  enableCalls : Nat
  rateSetCalls : Nat
  disableCalls : Nat
deriving DecidableEq

/-- SensorListener::setCallbacks (lines 178-187): the function pointer is
assigned only when orientation_cb is non-null, but mCbCookie = cookie is
executed unconditionally. -/
def setCallbacks (s : SensorListenerState) (orientation_cb : Option Nat)
    (cookie : Nat) : SensorListenerState :=
  { s with
    mOrientationCb :=
      match orientation_cb with
      | some cb => some cb
      | none => s.mOrientationCb
    mCbCookie := cookie }

/-- SensorListener::handleOrientation (lines 189-196): under the lock, if a
callback is registered and the SENSOR_ORIENTATION bit of sensorsEnabled is
set, the callback is invoked with (orientation, tilt, mCbCookie).  The
returned pair is (unchanged state, the invocation performed: callback
identity with its three arguments, or none when the reading is dropped). -/
def handleOrientation (s : SensorListenerState) (orientation tilt : Nat) :
    SensorListenerState × Option (Nat × Nat × Nat × Nat) :=
  match s.mOrientationCb with
  | some cb =>
      if s.sensorsEnabled &&& SENSOR_ORIENTATION ≠ 0 then
        (s, some (cb, orientation, tilt, s.mCbCookie))
      else (s, none)
  | none => (s, none)

/-- SensorListener::enableSensor (lines 198-222): when type has the
SENSOR_ORIENTATION bit and the kind is not yet enabled, the default
accelerometer is looked up (hasAccel models whether getDefaultSensor
returns non-null); if present the subsystem enableSensor and setEventRate
calls are made and the mask bit is set, otherwise nothing happens. -/
def enableSensor (hasAccel : Bool) (s : SensorListenerState)
    (hw : SubsystemCalls) (type : Nat) : SensorListenerState × SubsystemCalls :=
  if type &&& SENSOR_ORIENTATION ≠ 0 ∧ s.sensorsEnabled &&& SENSOR_ORIENTATION = 0 then
    if hasAccel then
      ({ s with sensorsEnabled := s.sensorsEnabled ||| SENSOR_ORIENTATION },
       { hw with enableCalls := hw.enableCalls + 1, rateSetCalls := hw.rateSetCalls + 1 })
    else (s, hw)
  else (s, hw)

/-- SensorListener::disableSensor (lines 224-247): when type has the
SENSOR_ORIENTATION bit and the kind is currently enabled, the default
accelerometer is looked up; if present the subsystem disableSensor call is
made and the mask bit is cleared with the 32-bit complement
~SENSOR_ORIENTATION, otherwise nothing happens. -/
def disableSensor (hasAccel : Bool) (s : SensorListenerState)
    (hw : SubsystemCalls) (type : Nat) : SensorListenerState × SubsystemCalls :=
  if type &&& SENSOR_ORIENTATION ≠ 0 ∧ s.sensorsEnabled &&& SENSOR_ORIENTATION ≠ 0 then
    if hasAccel then
      ({ s with sensorsEnabled := s.sensorsEnabled &&& (4294967295 ^^^ SENSOR_ORIENTATION) },
       { hw with disableCalls := hw.disableCalls + 1 })
    else (s, hw)
  else (s, hw)

/-- Android status_t codes used by the source: NO_ERROR is 0, the error
codes are the negated errno values of the Android error space. -/
def NO_ERROR : Int := 0

/-- Android status_t NO_INIT = -ENODEV. -/
def NO_INIT : Int := -19

/-- Android status_t NO_MEMORY = -ENOMEM. -/
def NO_MEMORY : Int := -12

/-- Android status_t INVALID_OPERATION = -ENOSYS, returned by
Thread::run when the thread is already running. -/
def INVALID_OPERATION : Int := -38

/-- The owning-pointer members of SensorListener relevant to the lifecycle
claims, each modelled as a presence flag: mSensorEventQueue,
mSensorLooperThread and the mLooper member read by the destructor. -/
structure ListenerHandles where
  mSensorEventQueue : Bool
  mSensorLooperThread : Bool
  mLooper : Bool
deriving DecidableEq

/-- The state the constructor (lines 96-105) leaves the listener in: the
queue and thread members are nulled; the sp member mLooper is
default-constructed null. -/
def constructedListener : ListenerHandles :=
  { mSensorEventQueue := false, mSensorLooperThread := false, mLooper := false }

/-- SensorListener's member function initialize (lines 133-176), modelled
on its environment inputs: queueOk is whether createEventQueue returns
non-null, allocOk whether the SensorLooperThread allocation yields
non-null, runRet the status Thread::run returns.  Line 144 declares a
local sp named like the mLooper member, which it shadows: the Looper
holding the addFd registration is stored only in that local, so the
mLooper member field is never assigned here.  The already-running case
(ret == INVALID_OPERATION, lines 166-167) only logs; control then reaches
the out label and the function returns ret unchanged. -/
def initListener (queueOk allocOk : Bool) (runRet : Int)
    (h : ListenerHandles) : Int × ListenerHandles :=
  if queueOk = false then (NO_INIT, { h with mSensorEventQueue := false })
  else
    let h1 := { h with mSensorEventQueue := true }
    let h2 :=
      if h1.mSensorLooperThread = false then { h1 with mSensorLooperThread := allocOk } else h1
    if h2.mSensorLooperThread = false then (NO_MEMORY, h2)
    else (runRet, h2)

/-- The observable teardown actions of the destructor. -/
inductive DtorAction
  | requestExitA
  | wakeA
  | joinA
  | removeFdA
deriving DecidableEq

/-- The action trace of the destructor (lines 107-131): when the thread
member is non-null it requests exit, wakes the looper and joins; when the
mLooper member is non-null it removes the event queue descriptor from it.
The branches run in this textual order. -/
def destructorTrace (h : ListenerHandles) : List DtorAction :=
  (if h.mSensorLooperThread then
    [DtorAction.requestExitA, DtorAction.wakeA, DtorAction.joinA]
  else []) ++
  (if h.mLooper then [DtorAction.removeFdA] else [])

/-- Helper: or-ing in bit 0 makes bit 0 of the mask set. -/
lemma or_one_and_one (n : Nat) : (n ||| 1) &&& 1 = 1 := by
  rw [Nat.and_one_is_mod]
  have h : (n ||| 1).testBit 0 = true := by
    rw [Nat.testBit_or]
    simp
  rw [Nat.testBit_zero] at h
  exact of_decide_eq_true h

/-- Helper: the code's tilt computation at asin argument 1 (gravity straight
up) gives 57, because asin(1) = pi/2 is truncated to 1 before the degree
conversion. -/
lemma tiltOf_one : tiltOf 1 = 57 := by
  unfold tiltOf
  rw [Real.arcsin_one, ftrunc_pi_div_two]
  have h : ((1 : ℤ) : ℝ) * RADIANS_2_DEG = 180 / Real.pi := by
    unfold RADIANS_2_DEG
    push_cast
    ring
  rw [h, ftrunc_deg_per_rad]

/-- Helper: the code's tilt computation at asin argument 0 gives 0. -/
lemma tiltOf_zero : tiltOf 0 = 0 := by
  unfold tiltOf
  rw [Real.arcsin_zero, ftrunc_zero]
  have h : ((0 : ℤ) : ℝ) * RADIANS_2_DEG = 0 := by
    push_cast
    ring
  rw [h, ftrunc_zero]

/-- Helper: atan2 at the origin is 0. -/
lemma atan2_zero_zero : atan2 (-(0 : ℝ)) 0 = 0 := by
  unfold atan2
  norm_num

/-- Helper: the code's orientation for the sample direction (0, 0) is 0. -/
lemma orientOf_zero_zero : orientOf 0 0 = 0 := by
  unfold orientOf
  rw [atan2_zero_zero, ftrunc_zero]
  have h : ((0 : ℤ) : ℝ) * RADIANS_2_DEG = 0 := by
    push_cast
    ring
  rw [h, ftrunc_zero]
  norm_num [DEGREES_270_THRESH, DEGREES_180_THRESH, DEGREES_90_THRESH]

/-- Helper: the radius of the sample (0, 0, 1) is 1. -/
lemma radius_001 : radius 0 0 1 = 1 := by
  unfold radius
  norm_num

/-- Helper: atan2(-1, 1) is -(pi/4). -/
lemma atan2_neg_one_one : atan2 (-(1 : ℝ)) 1 = -(Real.pi / 4) := by
  unfold atan2
  rw [if_pos one_pos]
  norm_num [Real.arctan_neg, Real.arctan_one]

/-- Helper: the code's orientation for the sample direction (1, 1) is 0:
the radian value -(pi/4) truncates to 0 before the degree conversion, so
the normalization and the threshold ladder see 0. -/
lemma orientOf_one_one : orientOf 1 1 = 0 := by
  unfold orientOf
  rw [atan2_neg_one_one, ftrunc_neg_pi_div_four]
  have h : ((0 : ℤ) : ℝ) * RADIANS_2_DEG = 0 := by
    push_cast
    ring
  rw [h, ftrunc_zero]
  norm_num [DEGREES_270_THRESH, DEGREES_180_THRESH, DEGREES_90_THRESH]

/-- C1: the claim says the tilt delivered for a sample with z = radius is
approximately 90 degrees (asin(z/radius) converted to degrees, up to
integer truncation).  On the sample (0, 0, 1) the code instead delivers
tilt = 57, because the int cast on line 64 binds to asinf(z/radius) and
truncates the radian value pi/2 to 1 before multiplying by RADIANS_2_DEG,
while the conversion the claim states yields exactly 90. -/
theorem c1_tilt_radians_truncated_before_degrees :
    processAccelSample 0 0 1 = some (57, 0) ∧ tiltClaimed 0 0 1 = 90 := by
  constructor
  · unfold processAccelSample
    rw [radius_001]
    unfold fdiv
    rw [if_neg one_ne_zero]
    norm_num [tiltOf_one, orientOf_zero_zero]
  · unfold tiltClaimed
    rw [radius_001]
    norm_num [Real.arcsin_one]
    have h : Real.pi / 2 * RADIANS_2_DEG = 90 := by
      unfold RADIANS_2_DEG
      field_simp
      ring
    rw [h]
    have h2 := ftrunc_intCast 90
    norm_num at h2
    exact h2

/-- C2: the claim says the degenerate sample (0, 0, 0) is either
special-cased to tilt = 0 or turned into a defined unknown reading, and
that no unguarded division by zero occurs.  The code guards nothing: at
(0, 0, 0) the radius is 0 and z/radius is evaluated as 0/0, whose NaN
poisons the tilt whose conversion to int is undefined, so the embedded
computation yields none rather than any defined reading. -/
theorem c2_radius_zero_unguarded_division :
    processAccelSample 0 0 0 = none := by
  unfold processAccelSample
  have hrad : radius 0 0 0 = 0 := by
    unfold radius
    norm_num
  rw [hrad]
  unfold fdiv
  norm_num

/-- C3 counterexample: with callback 1 registered together with cookie 5,
a setCallbacks call passing a null callback and cookie 7 is not a no-op:
the function pointer is kept but the stored cookie becomes 7, breaking the
pairing the claim asserts. -/
theorem c3_null_callback_cookie_overwritten_cex :
    setCallbacks ⟨0, some 1, 5⟩ none 7 ≠ ⟨0, some 1, 5⟩ ∧
    (setCallbacks ⟨0, some 1, 5⟩ none 7).mOrientationCb = some 1 ∧
    (setCallbacks ⟨0, some 1, 5⟩ none 7).mCbCookie = 7 := by
  refine ⟨by decide, rfl, rfl⟩

/-- C3 amended: calling setCallbacks with a null callback keeps the stored
function pointer (and the sensor mask) unchanged but always overwrites the
stored context with the new cookie, so after such a call the context need
not match the function it was registered together with. -/
theorem c3_null_callback_keeps_fn_overwrites_cookie
    (s : SensorListenerState) (cookie : Nat) :
    (setCallbacks s none cookie).mOrientationCb = s.mOrientationCb ∧
    (setCallbacks s none cookie).mCbCookie = cookie ∧
    (setCallbacks s none cookie).sensorsEnabled = s.sensorsEnabled :=
  ⟨rfl, rfl, rfl⟩

/-- C4 counterexample: when createEventQueue and the thread allocation
succeed but Thread::run reports INVALID_OPERATION (already running), the
member function initialize returns INVALID_OPERATION, which is not the
success status NO_ERROR; the claim says this case is treated as success. -/
theorem c4_already_running_error_returned_cex :
    (initListener true true INVALID_OPERATION constructedListener).1 = INVALID_OPERATION ∧
    INVALID_OPERATION ≠ NO_ERROR := by
  refine ⟨rfl, by decide⟩

/-- C4 amended: the already-running start outcome is only logged
distinctly; the status Thread::run returns is propagated to the caller
unchanged (so INVALID_OPERATION is returned as an error), event-queue
creation failure returns NO_INIT, and thread allocation failure returns
NO_MEMORY. -/
theorem c4_init_status_propagation (r : Int) (h : ListenerHandles) :
    (initListener true true r h).1 = r ∧
    (∀ a : Bool, (initListener false a r h).1 = NO_INIT) ∧
    (h.mSensorLooperThread = false → (initListener true false r h).1 = NO_MEMORY) := by
  refine ⟨?_, fun a => rfl, fun hf => ?_⟩
  · by_cases hth : h.mSensorLooperThread = false
    · simp [initListener, hth]
    · simp [initListener, hth]
  · simp [initListener, hf]

/-- Witness for C4: from the freshly constructed listener, with queue
creation succeeding and the thread allocation failing, initialize returns
NO_MEMORY. -/
theorem c4_init_status_propagation_witness :
    (initListener true false 0 constructedListener).1 = NO_MEMORY :=
  (c4_init_status_propagation 0 constructedListener).2.2 rfl

/-- C5: the claim says the delivered orientation is atan2(-x, y) in
degrees, normalized into [0, 360) and discretized by the >= threshold
ladder.  On the sample (1, 1, 0) the code delivers orientation 0, because
the int cast on line 65 truncates the radian value -(pi/4) to 0 before
the degree conversion, whereas the pipeline the claim states yields -45
degrees, normalized to 315, discretized to 270. -/
theorem c5_orient_radians_truncated_before_degrees :
    processAccelSample 1 1 0 = some (0, 0) ∧ orientClaimed 1 1 = 270 := by
  constructor
  · unfold processAccelSample
    have hrad : radius 1 1 0 = Real.sqrt 2 := by
      unfold radius
      norm_num
    rw [hrad]
    unfold fdiv
    have hne : Real.sqrt 2 ≠ 0 := by
      have h2 : (0 : ℝ) < Real.sqrt 2 := Real.sqrt_pos.mpr (by norm_num)
      exact ne_of_gt h2
    rw [if_neg hne, zero_div]
    norm_num [tiltOf_zero, orientOf_one_one]
  · unfold orientClaimed
    rw [atan2_neg_one_one]
    have h : -(Real.pi / 4) * RADIANS_2_DEG = -45 := by
      unfold RADIANS_2_DEG
      field_simp
      ring
    rw [h]
    have h2 := ftrunc_intCast (-45)
    norm_num at h2
    rw [h2]
    norm_num [DEGREES_270_THRESH, DEGREES_180_THRESH, DEGREES_90_THRESH]

/-- C6: the claim says the destructor requests exit, wakes the looper,
joins the thread and only then removes the event source descriptor from
the wait primitive.  After a successful initialize from the constructed
state, the destructor's trace is exactly requestExit, wake, join and the
removeFd action never occurs at all: the local sp declared on line 144
shadows the mLooper member, so the member the destructor tests stays null
and the removal branch is dead. -/
theorem c6_remove_fd_branch_never_runs (r : Int) :
    destructorTrace (initListener true true r constructedListener).2 =
      [DtorAction.requestExitA, DtorAction.wakeA, DtorAction.joinA] ∧
    DtorAction.removeFdA ∉ destructorTrace (initListener true true r constructedListener).2 := by
  have h1 : destructorTrace (initListener true true r constructedListener).2 =
      [DtorAction.requestExitA, DtorAction.wakeA, DtorAction.joinA] := rfl
  refine ⟨h1, ?_⟩
  rw [h1]
  decide

/-- C7: handleOrientation leaves the listener state unchanged, performs an
invocation exactly when a callback is registered and the orientation bit
of sensorsEnabled is set, and in that case invokes the registered callback
with (orientation, tilt, mCbCookie); in every other state the reading is
dropped. -/
theorem c7_dispatch_requires_callback_and_enabled_bit
    (s : SensorListenerState) (o t : Nat) :
    (handleOrientation s o t).1 = s ∧
    ((handleOrientation s o t).2 ≠ none ↔
      s.mOrientationCb ≠ none ∧ s.sensorsEnabled &&& SENSOR_ORIENTATION ≠ 0) ∧
    (∀ cb, s.mOrientationCb = some cb →
      s.sensorsEnabled &&& SENSOR_ORIENTATION ≠ 0 →
      (handleOrientation s o t).2 = some (cb, o, t, s.mCbCookie)) := by
  unfold handleOrientation
  rcases hcb : s.mOrientationCb with _ | cb
  · simp [hcb]
  · by_cases hm : s.sensorsEnabled &&& SENSOR_ORIENTATION ≠ 0
    · simp [hcb, hm]
    · simp [hcb, hm]

/-- Witness for C7: with callback 3 registered with cookie 5 and the
orientation bit enabled, dispatching (90, 57) invokes callback 3 with
(90, 57, 5). -/
theorem c7_dispatch_requires_callback_and_enabled_bit_witness :
    (handleOrientation ⟨1, some 3, 5⟩ 90 57).2 = some (3, 90, 57, 5) :=
  (c7_dispatch_requires_callback_and_enabled_bit ⟨1, some 3, 5⟩ 90 57).2.2 3 rfl (by decide)

/-- C8: calling enableSensor with the orientation kind twice in a row
leaves the state and the subsystem call counters identical to calling it
once, for every starting state and whether or not a default accelerometer
is present; and disabling the orientation kind when its mask bit is
already clear is a no-op. -/
theorem c8_enable_idempotent_and_disable_noop
    (hasAccel : Bool) (s : SensorListenerState) (hw : SubsystemCalls) :
    enableSensor hasAccel (enableSensor hasAccel s hw SENSOR_ORIENTATION).1
        (enableSensor hasAccel s hw SENSOR_ORIENTATION).2 SENSOR_ORIENTATION =
      enableSensor hasAccel s hw SENSOR_ORIENTATION ∧
    (s.sensorsEnabled &&& SENSOR_ORIENTATION = 0 →
      disableSensor hasAccel s hw SENSOR_ORIENTATION = (s, hw)) := by
  constructor
  · by_cases hm : s.sensorsEnabled &&& SENSOR_ORIENTATION = 0
    · rcases hasAccel with _ | _
      · simp [enableSensor, SENSOR_ORIENTATION, hm]
      · have hset : (s.sensorsEnabled ||| SENSOR_ORIENTATION) &&& SENSOR_ORIENTATION = 1 :=
          or_one_and_one s.sensorsEnabled
        simp [enableSensor, SENSOR_ORIENTATION] at hm hset ⊢
        simp [hm, hset]
    · simp [enableSensor, hm]
  · intro hm
    unfold disableSensor
    rw [if_neg]
    intro hc
    exact hc.2 hm

/-- Witness for C8: disabling the orientation kind on a state whose mask
is empty changes nothing. -/
theorem c8_enable_idempotent_and_disable_noop_witness :
    disableSensor true ⟨0, none, 0⟩ ⟨0, 0, 0⟩ SENSOR_ORIENTATION = (⟨0, none, 0⟩, ⟨0, 0, 0⟩) :=
  (c8_enable_idempotent_and_disable_noop true ⟨0, none, 0⟩ ⟨0, 0, 0⟩).2 (by decide)

/-- C9: when getDefaultSensor reports no accelerometer, enableSensor is a
silent no-op for every state, call-counter record and requested type: the
mask is unchanged (so its orientation bit stays clear) and no subsystem
enable or rate-set call is made. -/
theorem c9_enable_without_accelerometer_noop
    (s : SensorListenerState) (hw : SubsystemCalls) (t : Nat) :
    enableSensor false s hw t = (s, hw) := by
  unfold enableSensor
  split
  · rfl
  · rfl

/-- C10: for every sensor type value whose SENSOR_ORIENTATION bit is
clear, enableSensor and disableSensor leave the listener state and the
subsystem call counters completely unchanged, whether or not an
accelerometer is present. -/
theorem c10_non_orientation_type_untouched
    (hasAccel : Bool) (s : SensorListenerState) (hw : SubsystemCalls)
    (t : Nat) (ht : t &&& SENSOR_ORIENTATION = 0) :
    enableSensor hasAccel s hw t = (s, hw) ∧ disableSensor hasAccel s hw t = (s, hw) := by
  constructor
  · unfold enableSensor
    rw [if_neg]
    intro hc
    exact hc.1 ht
  · unfold disableSensor
    rw [if_neg]
    intro hc
    exact hc.1 ht

/-- Witness for C10: a gyroscope-only type value (bit 1) leaves a state
with the orientation kind enabled, and its counters, untouched by both
calls. -/
theorem c10_non_orientation_type_untouched_witness :
    enableSensor true ⟨1, some 3, 5⟩ ⟨0, 0, 0⟩ 2 = (⟨1, some 3, 5⟩, ⟨0, 0, 0⟩) ∧
    disableSensor true ⟨1, some 3, 5⟩ ⟨0, 0, 0⟩ 2 = (⟨1, some 3, 5⟩, ⟨0, 0, 0⟩) :=
  c10_non_orientation_type_untouched true ⟨1, some 3, 5⟩ ⟨0, 0, 0⟩ 2 (by decide)
